import Mathlib

/-!
Verification of the winsys ACL/ACE core and the environment module.

The ACL/ACE container (`_acls.py` / `_aces.py`) is exercised by
`test/test_acls.py` but its implementation module is not part of the
source tree; its data model and operations are therefore modelled from
the specification (each such definition says so in its doc comment).
The environment module (`winsys/environment.py`) is embedded directly
from its source.
-/

/-- Modelled from the spec: the `access_type` of an Ace, "one of
{Allow, Deny}, case-insensitive on input, canonicalized to an enum"
(missing module `_aces.py`). -/
inductive AccessType where
  | allow : AccessType
  | deny : AccessType
deriving DecidableEq, Repr

/-- Modelled from the spec: a normalized access-control entry with its
`(trustee, rights, access_type)` triple; the trustee is "kept opaque to
the core beyond equality/formatting" and is modelled as a string, the
rights are "a normalized integer bit-mask" (missing module `_aces.py`). -/
structure Ace where
  trustee : String
  rights : Nat
  access_type : AccessType
deriving DecidableEq, Repr

/-- Modelled from the spec: the `rights` slot of a raw tuple, "either a
normalized integer bit-mask or a symbolic name resolved through the
rights registry" (missing module `_aces.py`). -/
inductive RightsIn where
  | str : String → RightsIn
  | num : Nat → RightsIn
deriving DecidableEq, Repr

/-- Modelled from the spec: a raw 3-tuple `(trustee, rights, access_type)`
before normalization (missing module `_aces.py`). -/
structure RawTuple where
  trustee : String
  rights : RightsIn
  access_type : String
deriving DecidableEq, Repr

/-- Modelled from the spec: a native-format entry `(type, flags, mask,
trustee)` as exposed by the native ACL capability (missing module
`_acls.py`); the type slot is already remapped to the Allow/Deny enum. -/
structure NativeEntry where
  ty : AccessType
  flags : Nat
  mask : Nat
  trustee : String
deriving DecidableEq, Repr

/-- Modelled from the spec: the error taxonomy of §7 (missing modules
`_aces.py` / `_acls.py`). -/
inductive WinError where
  | unknown_right : WinError
  | invalid_access_type : WinError
  | invalid_acl_source : WinError
  | index_error : WinError
deriving DecidableEq, Repr

/-- Lower-casing of a string's characters, modelling Python's
`str.lower()` on the ASCII access-type tokens. -/
def lower_chars (s : String) : List Char := s.data.map Char.toLower

/-- Modelled from the spec: "case-insensitive match against
{\"Allow\",\"Deny\"} (any casing)"; yields the canonical enum, or nothing
for an unrecognized token (missing module `_aces.py`). -/
def parse_access_type (s : String) : Option AccessType :=
  if lower_chars s = "allow".data then some AccessType.allow
  else if lower_chars s = "deny".data then some AccessType.deny
  else none

/-- Modelled from the spec: the rights registry collaborator,
"pass-through for already-numeric input", registry lookup for a string,
nothing for an unrecognized symbol (missing module `_aces.py`). -/
def lookup_rights (registry : String → Option Nat) : RightsIn → Option Nat
  | RightsIn.num n => some n
  | RightsIn.str s => registry s

/-- Modelled from the spec: normalization of a raw 3-tuple into an Ace.
The access-type token is validated (failing with `invalid_access_type`),
then the rights are resolved through the registry (failing with
`unknown_right`); the trustee is stored verbatim (missing module
`_aces.py`). -/
def ace_from_tuple (registry : String → Option Nat) (t : RawTuple) :
    Except WinError Ace :=
  match parse_access_type t.access_type with
  | none => Except.error WinError.invalid_access_type
  | some ty =>
    match lookup_rights registry t.rights with
    | none => Except.error WinError.unknown_right
    | some m => Except.ok { trustee := t.trustee, rights := m, access_type := ty }

/-- Modelled from the spec: a native-format entry "is unpacked and
remapped into the tuple shape before normalization"; its mask is numeric
so it is used as-is (missing module `_aces.py`). -/
def ace_of_native (e : NativeEntry) : Ace :=
  { trustee := e.trustee, rights := e.mask, access_type := e.ty }

/-- Modelled from the spec: the accepted shapes of `ace()` input — a raw
3-tuple, an already-constructed Ace, or a native-format entry (missing
module `_aces.py`). -/
inductive AceInput where
  | tuple : RawTuple → AceInput
  | aceVal : Ace → AceInput
  | native : NativeEntry → AceInput
deriving DecidableEq, Repr

/-- Modelled from the spec: the `ace(source)` factory — an Ace is
"returned unchanged", a tuple is normalized, a native entry is remapped
(missing module `_aces.py`). -/
def ace (registry : String → Option Nat) : AceInput → Except WinError Ace
  | AceInput.aceVal e => Except.ok e
  | AceInput.tuple t => ace_from_tuple registry t
  | AceInput.native n => Except.ok (ace_of_native n)

/-- Modelled from the spec: the ACL container — `entries`, "an owned,
ordered sequence of Ace, insertion order significant", and
`native_handle`, an "optional reference to a pre-existing native ACL
object this instance wraps" (missing module `_acls.py`). -/
structure ACL where
  entries : List Ace
  native_handle : Option (List NativeEntry)
deriving DecidableEq, Repr

/-- Modelled from the spec: the canonicalization key — "Deny < Allow; no
secondary key" (missing module `_acls.py`). -/
def canon_key (e : Ace) : Nat :=
  match e.access_type with
  | AccessType.deny => 0
  | AccessType.allow => 1

/-- Modelled from the spec: the canonicalization order relation used by
the stable sort (missing module `_acls.py`). -/
def canon_le (x y : Ace) : Prop := canon_key x ≤ canon_key y

instance : DecidableRel canon_le := fun x y =>
  inferInstanceAs (Decidable (canon_key x ≤ canon_key y))

/-- Modelled from the spec: the stable sort of a list of entries "by
canonicalization key (Deny before Allow)" — insertion sort is stable
(missing module `_acls.py`). -/
def canon_sort (l : List Ace) : List Ace := l.insertionSort canon_le

/-- Modelled from the spec: `produce_sequence()` — "returns entries
sorted by canonicalization key (Deny before Allow), stable"; being a pure
function of the ACL it cannot mutate `entries` (missing module
`_acls.py`). -/
def produce_sequence (a : ACL) : List Ace := canon_sort a.entries

/-- Boolean test for a Deny-type entry. -/
def is_deny (e : Ace) : Bool := e.access_type == AccessType.deny

/-- Boolean test for an Allow-type entry. -/
def is_allow (e : Ace) : Bool := e.access_type == AccessType.allow

/-- Modelled from the spec: the four accepted shapes of `acl()` input, in
the dispatch priority order of §4.2 (missing module `_acls.py`). -/
inductive AclSource where
  | nothing : AclSource
  | ofACL : ACL → AclSource
  | ofNative : List NativeEntry → AclSource
  | ofIter : List RawTuple → AclSource

/-- Modelled from the spec: constructing the entry sequence from an
iterable, "normalizing each element via `ace()`, appending to `entries`
in consumption order" (missing module `_acls.py`). -/
def normalize_list (registry : String → Option Nat) :
    List RawTuple → Except WinError (List Ace)
  | [] => Except.ok []
  | t :: ts =>
    match ace_from_tuple registry t with
    | Except.error e => Except.error e
    | Except.ok a =>
      match normalize_list registry ts with
      | Except.error e => Except.error e
      | Except.ok rest => Except.ok (a :: rest)

/-- Modelled from the spec: the `acl(source)` factory with its four
dispatch rules — `None` gives an empty ACL with no native handle, an ACL
is returned unchanged, a native object is wrapped with its entries
eagerly materialized in native enumeration order, and an iterable is
drained with each element normalized via `ace()` (missing module
`_acls.py`). -/
def acl (registry : String → Option Nat) : AclSource → Except WinError ACL
  | AclSource.nothing => Except.ok { entries := [], native_handle := none }
  | AclSource.ofACL a => Except.ok a
  | AclSource.ofNative n =>
    Except.ok { entries := n.map ace_of_native, native_handle := some n }
  | AclSource.ofIter ts =>
    match normalize_list registry ts with
    | Except.error e => Except.error e
    | Except.ok es => Except.ok { entries := es, native_handle := none }

/-- Modelled from the spec: `length()` of the sequence protocol (missing
module `_acls.py`). -/
def ACL.len (a : ACL) : Nat := a.entries.length

/-- Modelled from the spec: boolean truth of an ACL, "decided purely by
`entries` being empty" (missing module `_acls.py`). -/
def ACL.nonzero (a : ACL) : Bool := !a.entries.isEmpty

/-- Modelled from the spec: `get(i)` of the sequence protocol, indexed in
insertion order, failing with an index-range error when out of range
(missing module `_acls.py`). -/
def ACL.get_at (a : ACL) (i : Nat) : Except WinError Ace :=
  match a.entries.get? i with
  | some e => Except.ok e
  | none => Except.error WinError.index_error

/-- Modelled from the spec: `set(i, tuple_or_ace)` of the sequence
protocol — the argument is normalized via `ace()` and replaces the entry
at insertion position `i` (missing module `_acls.py`). -/
def ACL.set_at (registry : String → Option Nat) (a : ACL) (i : Nat)
    (v : AceInput) : Except WinError ACL :=
  if i < a.entries.length then
    match ace registry v with
    | Except.error e => Except.error e
    | Except.ok x => Except.ok { a with entries := a.entries.set i x }
  else Except.error WinError.index_error

/-- Modelled from the spec: `delete(i)` of the sequence protocol —
removes the entry at insertion position `i` (missing module
`_acls.py`). -/
def ACL.delete_at (a : ACL) (i : Nat) : Except WinError ACL :=
  if i < a.entries.length then
    Except.ok { a with entries := a.entries.eraseIdx i }
  else Except.error WinError.index_error

/-- Modelled from the spec: `append(tuple_or_ace)` — the argument is
normalized via `ace()` and added at the end of insertion order (missing
module `_acls.py`). -/
def ACL.append (registry : String → Option Nat) (a : ACL) (v : AceInput) :
    Except WinError ACL :=
  match ace registry v with
  | Except.error e => Except.error e
  | Except.ok x => Except.ok { a with entries := a.entries ++ [x] }

/-- Modelled from the spec: `contains(value)` — "true iff `value` (tuple
or Ace) normalizes to an entry equal to some element of `entries`,
independent of order" (missing module `_acls.py`). -/
def ACL.contains (registry : String → Option Nat) (a : ACL) (v : AceInput) :
    Except WinError Bool :=
  match ace registry v with
  | Except.error e => Except.error e
  | Except.ok x => Except.ok (decide (x ∈ a.entries))

/-- Modelled from the spec: the native rendering of an Ace handed to the
native "add entry" capability (missing module `_acls.py`). -/
def native_of_ace (e : Ace) : NativeEntry :=
  { ty := e.access_type, flags := 0, mask := e.rights, trustee := e.trustee }

/-- Modelled from the spec: `pyobject()` — `None` when `entries` is empty
and no native handle was set; with a native handle, the wrapped object's
own entries are treated as already present and only the entries added
after wrapping are appended to it in canonical order; otherwise a fresh
native object built from `produce_sequence()` (missing module
`_acls.py`). -/
def ACL.pyobject (a : ACL) : Option (List NativeEntry) :=
  match a.native_handle with
  | some n => some (n ++ (canon_sort (a.entries.drop n.length)).map native_of_ace)
  | none =>
    if a.entries.isEmpty then none
    else some ((produce_sequence a).map native_of_ace)

/-- Modelled from the spec: a one-shot lazy iterable of raw tuples — it
holds the elements not yet yielded and counts how many times it has been
advanced, so that "drained exactly once" is observable (missing module
`_acls.py`). -/
structure OneShotIter where
  pending : List RawTuple
  consumed : Nat
deriving DecidableEq, Repr

/-- Modelled from the spec: advancing a one-shot iterator — yields the
next element and the spent iterator state, or nothing when exhausted
(missing module `_acls.py`). -/
def OneShotIter.next : OneShotIter → Option (RawTuple × OneShotIter)
  | { pending := [], consumed := _ } => none
  | { pending := t :: ts, consumed := k } => some (t, { pending := ts, consumed := k + 1 })

/-- Modelled from the spec: draining a one-shot iterator into the entry
list, "normalizing each element via `ace()`, appending to `entries` in
consumption order"; returns the built entries together with the spent
iterator (missing module `_acls.py`). -/
def drain_build (registry : String → Option Nat) :
    List RawTuple → Nat → List Ace → Except WinError (List Ace × OneShotIter)
  | [], k, acc => Except.ok (acc, { pending := [], consumed := k })
  | t :: ts, k, acc =>
    match ace_from_tuple registry t with
    | Except.error e => Except.error e
    | Except.ok a => drain_build registry ts (k + 1) (acc ++ [a])

/-- Modelled from the spec: constructing an ACL by draining a one-shot
lazy iterable exactly once (missing module `_acls.py`). -/
def acl_from_iterator (registry : String → Option Nat) (it : OneShotIter) :
    Except WinError (ACL × OneShotIter) :=
  match drain_build registry it.pending it.consumed [] with
  | Except.error e => Except.error e
  | Except.ok (es, it2) =>
    Except.ok ({ entries := es, native_handle := none }, it2)

/-!
Embedding of `winsys/environment.py`.

`Env.get` is written against the subclass hook `_get`; `Process` and
`Persistent` provide `_get`, `__getitem__`, `__setitem__` over the live
environment block respectively the registry.  The live environment block
and the registry are modelled as lookup functions `String → Option
String`, with `none` standing for the not-found condition (`None` from
`win32api.GetEnvironmentVariable`, respectively the `x_not_found`
exception of `registry.get_value`).  `win32api.ExpandEnvironmentStrings`
is modelled as an abstract string transformer.
-/

/-- Python exceptions that the environment module's lookup paths can
raise: `KeyError` and winsys's `x_not_found`. -/
inductive PyExc where
  | keyError : PyExc
  | xNotFound : PyExc
deriving DecidableEq, Repr

/-- A Python value flowing through `Env.get`: `None` or a string. -/
inductive PyVal where
  | pynone : PyVal
  | str : String → PyVal
deriving DecidableEq, Repr

/-- Python's `unicode()` applied to such a value: `unicode(None)` is the
string `"None"`, a string is unchanged. -/
def py_unicode : PyVal → String
  | PyVal.pynone => "None"
  | PyVal.str s => s

/-- `Env.expand`: `wrapped(win32api.ExpandEnvironmentStrings, unicode(item))`
— the item is coerced with `unicode()` and handed to the expander. -/
def env_expand (expand_fn : String → String) (item : PyVal) : String :=
  expand_fn (py_unicode item)

/-- `Env.get(item, default, expand)`: calls `self._get(item)`; a
`KeyError` is answered with `default`, any other exception propagates,
and a returned value is expanded iff `expand` is true.  `get_raw` is the
outcome of the subclass `_get` call. -/
def env_get (get_raw : Except PyExc PyVal) (expand_fn : String → String)
    (default : PyVal) (expand : Bool) : Except PyExc PyVal :=
  match get_raw with
  | Except.error PyExc.keyError => Except.ok default
  | Except.error e => Except.error e
  | Except.ok v =>
    Except.ok (if expand then PyVal.str (env_expand expand_fn v) else v)

/-- The docstring of `Env.get` instead promises: "This default is
expanded if `expand` is True."  This definition follows the docstring's
words (to be compared with `env_get`, which follows the code). -/
def env_get_docstring (get_raw : Except PyExc PyVal)
    (expand_fn : String → String) (default : PyVal) (expand : Bool) :
    Except PyExc PyVal :=
  match get_raw with
  | Except.error PyExc.keyError =>
    Except.ok (if expand then PyVal.str (env_expand expand_fn default) else default)
  | Except.error e => Except.error e
  | Except.ok v =>
    Except.ok (if expand then PyVal.str (env_expand expand_fn v) else v)

/-- `Process._get`: `wrapped(win32api.GetEnvironmentVariable, item)` —
the API returns the value, or `None` when the variable does not exist.
`lookup` models the process environment block. -/
def process_get_raw (lookup : String → Option String) (item : String) : PyVal :=
  match lookup item with
  | none => PyVal.pynone
  | some v => PyVal.str v

/-- `Process.__getitem__`: calls `_get`; a `None` result is converted to
`KeyError`, otherwise the value is returned through `unicode()`. -/
def process_getitem (lookup : String → Option String) (item : String) :
    Except PyExc String :=
  match process_get_raw lookup item with
  | PyVal.pynone => Except.error PyExc.keyError
  | PyVal.str v => Except.ok v

/-- `Process.get` as actually wired: `Env.get` running on top of
`Process._get`, which returns `None` (never raises `KeyError`) for a
missing variable. -/
def process_env_get (lookup : String → Option String) (item : String)
    (expand_fn : String → String) (default : PyVal) (expand : Bool) :
    Except PyExc PyVal :=
  env_get (Except.ok (process_get_raw lookup item)) expand_fn default expand

/-- `Persistent._get`: `unicode(self.registry.get_value(item))`, with the
registry's `x_not_found` exception caught and converted to a `None`
return.  `reg_val` models `registry.get_value`, `none` standing for the
`x_not_found` exception. -/
def persistent_get_raw (reg_val : String → Option String) (item : String) :
    PyVal :=
  match reg_val item with
  | none => PyVal.pynone
  | some v => PyVal.str v

/-- `Persistent.__getitem__`: calls `_get`; a `None` result is converted
to `KeyError`, otherwise the value is returned. -/
def persistent_getitem (reg_val : String → Option String) (item : String) :
    Except PyExc String :=
  match persistent_get_raw reg_val item with
  | PyVal.pynone => Except.error PyExc.keyError
  | PyVal.str v => Except.ok v

/-- `Persistent.get` as actually wired: `Env.get` running on top of
`Persistent._get`, which returns `None` (never raises `KeyError`) for a
missing variable. -/
def persistent_env_get (reg_val : String → Option String) (item : String)
    (expand_fn : String → String) (default : PyVal) (expand : Bool) :
    Except PyExc PyVal :=
  env_get (Except.ok (persistent_get_raw reg_val item)) expand_fn default expand

/-!
Characterization of the canonical (deny-first, stable) order.
-/

lemma canon_key_deny {e : Ace} (h : e.access_type = AccessType.deny) :
    canon_key e = 0 := by
  simp [canon_key, h]

lemma canon_key_allow {e : Ace} (h : e.access_type = AccessType.allow) :
    canon_key e = 1 := by
  simp [canon_key, h]

lemma orderedInsert_deny (e : Ace) (he : canon_key e = 0) (l : List Ace) :
    l.orderedInsert canon_le e = e :: l := by
  cases l with
  | nil => rfl
  | cons b bs =>
    have : canon_le e b := by
      unfold canon_le
      rw [he]
      exact Nat.zero_le _
    simp [List.orderedInsert, this]

lemma orderedInsert_allow (e : Ace) (he : canon_key e = 1) :
    ∀ (dl al : List Ace), (∀ x ∈ dl, canon_key x = 0) →
      (∀ x ∈ al, canon_key x = 1) →
      (dl ++ al).orderedInsert canon_le e = dl ++ e :: al := by
  intro dl
  induction dl with
  | nil =>
    intro al _ hal
    cases al with
    | nil => rfl
    | cons b bs =>
      have hb : canon_key b = 1 := hal b (by simp)
      have : canon_le e b := by
        unfold canon_le
        rw [he, hb]
      simp [List.orderedInsert, this]
  | cons d dl ih =>
    intro al hdl hal
    have hd : canon_key d = 0 := hdl d (by simp)
    have : ¬ canon_le e d := by
      unfold canon_le
      rw [he, hd]
      exact Nat.not_succ_le_zero 0
    simp only [List.cons_append, List.orderedInsert, if_neg this]
    show d :: (dl ++ al).orderedInsert canon_le e = d :: (dl ++ e :: al)
    rw [ih al (fun x hx => hdl x (by simp [hx])) hal]

lemma mem_filter_deny {l : List Ace} {x : Ace} (hx : x ∈ l.filter is_deny) :
    canon_key x = 0 := by
  have := (List.mem_filter.1 hx).2
  have hx2 : x.access_type = AccessType.deny := by
    simpa [is_deny] using this
  exact canon_key_deny hx2

lemma mem_filter_allow {l : List Ace} {x : Ace} (hx : x ∈ l.filter is_allow) :
    canon_key x = 1 := by
  have := (List.mem_filter.1 hx).2
  have hx2 : x.access_type = AccessType.allow := by
    simpa [is_allow] using this
  exact canon_key_allow hx2

/-- The stable deny-first sort is exactly: the Deny entries in original
order, then the Allow entries in original order. -/
lemma canon_sort_eq_filters (l : List Ace) :
    canon_sort l = l.filter is_deny ++ l.filter is_allow := by
  induction l with
  | nil => rfl
  | cons e l ih =>
    have step : canon_sort (e :: l) =
        (canon_sort l).orderedInsert canon_le e := rfl
    rw [step, ih]
    cases he : e.access_type with
    | deny =>
      rw [orderedInsert_deny e (canon_key_deny he)]
      have hd : is_deny e = true := by simp [is_deny, he]
      have ha : is_allow e = false := by simp [is_allow, he]
      have h1 : (e :: l).filter is_deny = e :: l.filter is_deny := by
        simp [List.filter_cons, hd]
      have h2 : (e :: l).filter is_allow = l.filter is_allow := by
        simp [List.filter_cons, ha]
      rw [h1, h2]
      rfl
    | allow =>
      rw [orderedInsert_allow e (canon_key_allow he) _ _
        (fun x hx => mem_filter_deny hx) (fun x hx => mem_filter_allow hx)]
      have hd : is_deny e = false := by simp [is_deny, he]
      have ha : is_allow e = true := by simp [is_allow, he]
      have h1 : (e :: l).filter is_deny = l.filter is_deny := by
        simp [List.filter_cons, hd]
      have h2 : (e :: l).filter is_allow = e :: l.filter is_allow := by
        simp [List.filter_cons, ha]
      rw [h1, h2]

lemma canon_sort_perm (l : List Ace) : (canon_sort l).Perm l :=
  List.perm_insertionSort canon_le l

/-- In `canon_sort l`, Deny entries precede Allow entries pairwise. -/
lemma canon_sort_pairwise (l : List Ace) :
    List.Pairwise (fun x y : Ace =>
      x.access_type = AccessType.deny ∨ y.access_type = AccessType.allow)
      (canon_sort l) := by
  rw [canon_sort_eq_filters]
  refine List.pairwise_append.2 ⟨?_, ?_, ?_⟩
  · refine List.pairwise_of_forall_mem_list ?_
    intro x hx y _
    left
    simpa [is_deny] using (List.mem_filter.1 hx).2
  · refine List.pairwise_of_forall_mem_list ?_
    intro x _ y hy
    right
    simpa [is_allow] using (List.mem_filter.1 hy).2
  · intro x hx y _
    left
    simpa [is_deny] using (List.mem_filter.1 hx).2

/-!
Concrete sample data mirroring `test/test_acls.py`: a small rights
registry ("R" for read, "F" for full control) and the two-entry ACL
built from `[("Everyone","R","Allow"), ("Administrators","F","Deny")]`.
-/

/-- Sample rights registry: "R" maps to mask 1, "F" to mask 3. -/
def sample_registry : String → Option Nat :=
  fun s => if s = "R" then some 1 else if s = "F" then some 3 else none

/-- Raw tuple `("Everyone", "R", "Allow")`. -/
def everyone_r_allow : RawTuple :=
  { trustee := "Everyone", rights := RightsIn.str "R", access_type := "Allow" }

/-- Raw tuple `("Administrators", "F", "Deny")`. -/
def admins_f_deny : RawTuple :=
  { trustee := "Administrators", rights := RightsIn.str "F", access_type := "Deny" }

/-- The normalized Ace of `("Everyone", "R", "Allow")`. -/
def everyone_ace : Ace :=
  { trustee := "Everyone", rights := 1, access_type := AccessType.allow }

/-- The normalized Ace of `("Administrators", "F", "Deny")`. -/
def admins_ace : Ace :=
  { trustee := "Administrators", rights := 3, access_type := AccessType.deny }

/-- The ACL of the test scenario, stored in insertion order. -/
def sample_acl : ACL :=
  { entries := [everyone_ace, admins_ace], native_handle := none }

/-!
Claims.
-/

/-- C1: For every ACL, iterating it (`produce_sequence`) yields a stable
deny-first partition — it equals the Deny entries in insertion order
followed by the Allow entries in insertion order, every Deny-type entry
precedes every Allow-type entry pairwise, and the result is a
permutation of the stored entries, which `produce_sequence`, a pure
function of the ACL, leaves untouched. -/
theorem claim_C1 (a : ACL) :
    produce_sequence a =
      a.entries.filter is_deny ++ a.entries.filter is_allow ∧
    List.Pairwise (fun x y : Ace =>
      x.access_type = AccessType.deny ∨ y.access_type = AccessType.allow)
      (produce_sequence a) ∧
    (produce_sequence a).Perm a.entries :=
  ⟨canon_sort_eq_filters a.entries, canon_sort_pairwise a.entries,
    canon_sort_perm a.entries⟩

/-- Witness for C1 at the test scenario's two-entry ACL: the Deny entry
is iterated first although it was inserted second. -/
theorem claim_C1_witness :
    produce_sequence sample_acl =
      sample_acl.entries.filter is_deny ++ sample_acl.entries.filter is_allow ∧
    List.Pairwise (fun x y : Ace =>
      x.access_type = AccessType.deny ∨ y.access_type = AccessType.allow)
      (produce_sequence sample_acl) ∧
    (produce_sequence sample_acl).Perm sample_acl.entries :=
  claim_C1 sample_acl

/-- C2: Constructing an ACL from an existing ACL instance returns that
instance unchanged (the Python code returns the very same object; in
this value-level embedding, the result is the unmodified input, so
construction is idempotent on already-constructed ACLs). -/
theorem claim_C2 (registry : String → Option Nat) (a : ACL) :
    acl registry (AclSource.ofACL a) = Except.ok a := rfl

/-- Witness for C2 at the sample registry and the test scenario's ACL. -/
theorem claim_C2_witness :
    acl sample_registry (AclSource.ofACL sample_acl) = Except.ok sample_acl :=
  claim_C2 sample_registry sample_acl

/-- Draining a one-shot iterator builds the same normalized entries as
the realized-list construction, threading the accumulated prefix and the
consumption counter. -/
lemma drain_build_eq (registry : String → Option Nat) :
    ∀ (ts : List RawTuple) (k : Nat) (acc : List Ace),
      drain_build registry ts k acc =
        (normalize_list registry ts).map
          (fun es => (acc ++ es, OneShotIter.mk [] (k + ts.length))) := by
  intro ts
  induction ts with
  | nil =>
    intro k acc
    simp [drain_build, normalize_list, Except.map]
  | cons t ts ih =>
    intro k acc
    show (match ace_from_tuple registry t with
      | Except.error e => Except.error e
      | Except.ok a => drain_build registry ts (k + 1) (acc ++ [a])) = _
    cases hA : ace_from_tuple registry t with
    | error e =>
      simp [normalize_list, hA, Except.map]
    | ok a =>
      show drain_build registry ts (k + 1) (acc ++ [a]) = _
      rw [ih (k + 1) (acc ++ [a])]
      cases hN : normalize_list registry ts with
      | error e => simp [normalize_list, hA, hN, Except.map]
      | ok rest =>
        simp only [normalize_list, hA, hN, Except.map]
        refine congrArg Except.ok ?_
        refine Prod.ext ?_ ?_
        · simp
        · simp [Nat.add_assoc, Nat.add_comm 1 ts.length]

/-- C3: Constructing an ACL from a one-shot lazy iterable of raw tuples
yields exactly the result of constructing from the equivalent realized
list — the same normalized entries in the same order (and the same
normalization error, if any) — and on success the iterable has been
drained exactly once: its pending elements are exhausted and it was
advanced exactly once per element. -/
theorem claim_C3 (registry : String → Option Nat) (ts : List RawTuple) :
    acl_from_iterator registry (OneShotIter.mk ts 0) =
      (acl registry (AclSource.ofIter ts)).map
        (fun a => (a, OneShotIter.mk [] ts.length)) := by
  unfold acl_from_iterator
  rw [drain_build_eq registry ts 0 []]
  cases hN : normalize_list registry ts with
  | error e => simp [acl, hN, Except.map]
  | ok es => simp [acl, hN, Except.map]

/-- Witness for C3: draining the one-shot iterable over the test
scenario's two tuples gives the same ACL as the realized list, with the
iterator spent after exactly two advances. -/
theorem claim_C3_witness :
    acl_from_iterator sample_registry
        (OneShotIter.mk [everyone_r_allow, admins_f_deny] 0) =
      (acl sample_registry
          (AclSource.ofIter [everyone_r_allow, admins_f_deny])).map
        (fun a => (a, OneShotIter.mk [] [everyone_r_allow, admins_f_deny].length)) :=
  claim_C3 sample_registry [everyone_r_allow, admins_f_deny]

/-- C4: For every ACL and every valid position `i`, indexed access reads
the entry at position `i` of the insertion-order sequence `entries` —
not of the canonical iteration order — and `set`/`delete` by position
likewise replace respectively remove the insertion-order entry at `i`,
leaving the rest of the insertion order (and the native handle)
unchanged. -/
theorem claim_C4 (registry : String → Option Nat) (a : ACL) (i : Nat)
    (v : AceInput) (x : Ace) (h : i < a.entries.length)
    (hv : ace registry v = Except.ok x) :
    ACL.get_at a i = Except.ok (a.entries.get ⟨i, h⟩) ∧
    ACL.delete_at a i =
      Except.ok
        { entries := a.entries.take i ++ a.entries.drop (i + 1),
          native_handle := a.native_handle } ∧
    ACL.set_at registry a i v =
      Except.ok
        { entries := a.entries.set i x, native_handle := a.native_handle } := by
  refine ⟨?_, ?_, ?_⟩
  · unfold ACL.get_at
    rw [List.get?_eq_get h]
  · unfold ACL.delete_at
    rw [if_pos h, List.eraseIdx_eq_take_drop_succ]
  · unfold ACL.set_at
    rw [if_pos h, hv]

/-- Witness for C4 at the test scenario: position 0 of the two-entry ACL
is the Allow entry that was inserted first (insertion order), even
though canonical iteration puts the Deny entry first; deleting and
setting position 0 act on that same insertion-order slot. -/
theorem claim_C4_witness :
    ACL.get_at sample_acl 0 =
      Except.ok (sample_acl.entries.get ⟨0, by decide⟩) ∧
    ACL.delete_at sample_acl 0 =
      Except.ok
        { entries := sample_acl.entries.take 0 ++ sample_acl.entries.drop 1,
          native_handle := sample_acl.native_handle } ∧
    ACL.set_at sample_registry sample_acl 0 (AceInput.tuple everyone_r_allow) =
      Except.ok
        { entries := sample_acl.entries.set 0 everyone_ace,
          native_handle := sample_acl.native_handle } :=
  claim_C4 sample_registry sample_acl 0 (AceInput.tuple everyone_r_allow)
    everyone_ace (by decide) rfl

/-- C5: `acl(None)` yields an ACL with no entries and no native handle
(so length 0, boolean false, and `pyobject()` returning `None`), and for
every ACL the length and the boolean emptiness test are decided purely
by the entry sequence, independent of whether a native handle is
present. -/
theorem claim_C5 (registry : String → Option Nat) (entries : List Ace)
    (nh : Option (List NativeEntry)) :
    acl registry AclSource.nothing =
      Except.ok { entries := [], native_handle := none } ∧
    ACL.len { entries := [], native_handle := none } = 0 ∧
    ACL.nonzero { entries := [], native_handle := none } = false ∧
    ACL.pyobject { entries := [], native_handle := none } = none ∧
    ACL.len { entries := entries, native_handle := nh } = entries.length ∧
    (ACL.nonzero { entries := entries, native_handle := nh } = false ↔
      entries = []) ∧
    ACL.nonzero { entries := entries, native_handle := nh } =
      ACL.nonzero { entries := entries, native_handle := none } := by
  refine ⟨rfl, rfl, rfl, rfl, rfl, ?_, rfl⟩
  unfold ACL.nonzero
  simp [List.isEmpty_iff]

/-- Witness for C5 at the sample registry and the test scenario's entry
list with a native handle attached: emptiness ignores the handle. -/
theorem claim_C5_witness :
    acl sample_registry AclSource.nothing =
      Except.ok { entries := [], native_handle := none } ∧
    ACL.len { entries := [], native_handle := none } = 0 ∧
    ACL.nonzero { entries := [], native_handle := none } = false ∧
    ACL.pyobject { entries := [], native_handle := none } = none ∧
    ACL.len { entries := [everyone_ace, admins_ace], native_handle := some [] } =
      [everyone_ace, admins_ace].length ∧
    (ACL.nonzero { entries := [everyone_ace, admins_ace], native_handle := some [] } = false ↔
      [everyone_ace, admins_ace] = ([] : List Ace)) ∧
    ACL.nonzero { entries := [everyone_ace, admins_ace], native_handle := some [] } =
      ACL.nonzero { entries := [everyone_ace, admins_ace], native_handle := none } :=
  claim_C5 sample_registry [everyone_ace, admins_ace] (some [])

/-- C6: Wrapping a native ACL object records it as the native handle and
materializes its entries; `pyobject()` then returns that same handle
with only the entries added after wrapping appended to it (in canonical
order) — in particular, wrapping followed by `pyobject()` with no
intervening mutation returns the native object with its entry count and
entries exactly as before. -/
theorem claim_C6 (registry : String → Option Nat) (n : List NativeEntry)
    (xs : List Ace) :
    acl registry (AclSource.ofNative n) =
      Except.ok { entries := n.map ace_of_native, native_handle := some n } ∧
    ACL.pyobject { entries := n.map ace_of_native, native_handle := some n } =
      some n ∧
    ACL.pyobject
        { entries := n.map ace_of_native ++ xs, native_handle := some n } =
      some (n ++ (canon_sort xs).map native_of_ace) := by
  refine ⟨rfl, ?_, ?_⟩
  · unfold ACL.pyobject
    have hd : (n.map ace_of_native).drop n.length = [] := by
      rw [← List.length_map n ace_of_native, List.drop_length]
    simp [hd, canon_sort]
  · have hd : (n.map ace_of_native ++ xs).drop n.length = xs :=
      List.drop_left' (List.length_map n ace_of_native)
    simp [ACL.pyobject, hd]

/-- Witness for C6 at the native object of `test_acl_PyACL` — a single
Allow entry — wrapped and converted with nothing appended: the handle
comes back with its one entry unchanged. -/
theorem claim_C6_witness :
    acl sample_registry
        (AclSource.ofNative [NativeEntry.mk AccessType.allow 0 42 "Everyone"]) =
      Except.ok
        { entries := [NativeEntry.mk AccessType.allow 0 42 "Everyone"].map ace_of_native,
          native_handle := some [NativeEntry.mk AccessType.allow 0 42 "Everyone"] } ∧
    ACL.pyobject
        { entries := [NativeEntry.mk AccessType.allow 0 42 "Everyone"].map ace_of_native,
          native_handle := some [NativeEntry.mk AccessType.allow 0 42 "Everyone"] } =
      some [NativeEntry.mk AccessType.allow 0 42 "Everyone"] ∧
    ACL.pyobject
        { entries := [NativeEntry.mk AccessType.allow 0 42 "Everyone"].map ace_of_native ++ [],
          native_handle := some [NativeEntry.mk AccessType.allow 0 42 "Everyone"] } =
      some ([NativeEntry.mk AccessType.allow 0 42 "Everyone"] ++
        (canon_sort []).map native_of_ace) :=
  claim_C6 sample_registry [NativeEntry.mk AccessType.allow 0 42 "Everyone"] []

/-- Access-type parsing depends only on the lower-cased token. -/
lemma parse_access_type_congr {s s' : String}
    (hss : lower_chars s = lower_chars s') :
    parse_access_type s = parse_access_type s' := by
  unfold parse_access_type
  rw [hss]

/-- Tuple normalization depends only on the lower-cased access-type
token. -/
lemma ace_from_tuple_congr (registry : String → Option Nat) (t : String)
    (rin : RightsIn) {s s' : String}
    (hss : lower_chars s = lower_chars s') :
    ace_from_tuple registry (RawTuple.mk t rin s) =
      ace_from_tuple registry (RawTuple.mk t rin s') := by
  unfold ace_from_tuple
  rw [show (RawTuple.mk t rin s).access_type = s from rfl,
    show (RawTuple.mk t rin s').access_type = s' from rfl,
    parse_access_type_congr hss]

/-- C7: The containment test answers true exactly when the candidate
normalizes to an entry equal to some stored entry, regardless of
position; it is insensitive to the letter casing of the access-type
token, and a candidate whose normalized triple differs from every stored
entry in some component — in particular one whose rights differ even
though trustee and access type match — is reported not contained. -/
theorem claim_C7 (registry : String → Option Nat) (a : ACL) (v w : AceInput)
    (e : Ace) (t : String) (rin : RightsIn) (s s' : String)
    (hss : lower_chars s = lower_chars s')
    (he : ace registry w = Except.ok e)
    (hne : ∀ f ∈ a.entries,
      f.trustee ≠ e.trustee ∨ f.rights ≠ e.rights ∨
        f.access_type ≠ e.access_type) :
    (ACL.contains registry a v = Except.ok true ↔
      ∃ x, ace registry v = Except.ok x ∧ x ∈ a.entries) ∧
    ACL.contains registry a (AceInput.tuple (RawTuple.mk t rin s)) =
      ACL.contains registry a (AceInput.tuple (RawTuple.mk t rin s')) ∧
    ACL.contains registry a w = Except.ok false := by
  refine ⟨?_, ?_, ?_⟩
  · unfold ACL.contains
    cases hv : ace registry v with
    | error err =>
      constructor
      · intro hfalse
        cases hfalse
      · rintro ⟨x, hx, _⟩
        cases hx
    | ok x =>
      constructor
      · intro htrue
        have hd : decide (x ∈ a.entries) = true := by injection htrue
        exact ⟨x, rfl, of_decide_eq_true hd⟩
      · rintro ⟨x', hx', hmem⟩
        have hxx : x = x' := by injection hx'
        subst hxx
        have hd : decide (x ∈ a.entries) = true := decide_eq_true hmem
        show Except.ok (decide (x ∈ a.entries)) = Except.ok true
        rw [hd]
  · show ACL.contains registry a (AceInput.tuple (RawTuple.mk t rin s)) = _
    unfold ACL.contains
    show (match ace_from_tuple registry (RawTuple.mk t rin s) with
      | Except.error err => Except.error err
      | Except.ok x => Except.ok (decide (x ∈ a.entries))) = _
    rw [ace_from_tuple_congr registry t rin hss]
    rfl
  · unfold ACL.contains
    rw [he]
    have hnm : ¬ e ∈ a.entries := by
      intro hmem
      rcases hne e hmem with h | h | h
      · exact h rfl
      · exact h rfl
      · exact h rfl
    simp [hnm]

/-- Witness for C7 at the test scenario: `("Everyone","R","ALLOW")` is
contained despite the different casing, and `("Administrators","R","Deny")`
is not contained although its trustee and access type match the stored
Deny entry, because its rights differ. -/
theorem claim_C7_witness :
    (ACL.contains sample_registry sample_acl
        (AceInput.tuple (RawTuple.mk "Everyone" (RightsIn.str "R") "ALLOW")) =
          Except.ok true ↔
      ∃ x, ace sample_registry
          (AceInput.tuple (RawTuple.mk "Everyone" (RightsIn.str "R") "ALLOW")) =
            Except.ok x ∧ x ∈ sample_acl.entries) ∧
    ACL.contains sample_registry sample_acl
        (AceInput.tuple (RawTuple.mk "Everyone" (RightsIn.str "R") "ALLOW")) =
      ACL.contains sample_registry sample_acl
        (AceInput.tuple (RawTuple.mk "Everyone" (RightsIn.str "R") "Allow")) ∧
    ACL.contains sample_registry sample_acl
        (AceInput.tuple (RawTuple.mk "Administrators" (RightsIn.str "R") "Deny")) =
      Except.ok false :=
  claim_C7 sample_registry sample_acl
    (AceInput.tuple (RawTuple.mk "Everyone" (RightsIn.str "R") "ALLOW"))
    (AceInput.tuple (RawTuple.mk "Administrators" (RightsIn.str "R") "Deny"))
    (Ace.mk "Administrators" 1 AccessType.deny)
    "Everyone" (RightsIn.str "R") "ALLOW" "Allow"
    (by decide) rfl (by decide)

/-- C8: Normalizing a raw tuple fails with `invalid_access_type` exactly
when the access-type token does not case-insensitively match "Allow" or
"Deny" (any casing is accepted); with a valid access-type token it fails
with `unknown_right` exactly when the rights value is a string the
rights registry does not recognize, and a numeric rights value is used
as-is. -/
theorem claim_C8 (registry : String → Option Nat) (t s ats ats2 : String)
    (rin : RightsIn) (n : Nat) (ty : AccessType)
    (h2 : parse_access_type ats2 = some ty) :
    (ace_from_tuple registry (RawTuple.mk t rin ats) =
        Except.error WinError.invalid_access_type ↔
      parse_access_type ats = none) ∧
    (parse_access_type ats = none ↔
      (lower_chars ats ≠ "allow".data ∧ lower_chars ats ≠ "deny".data)) ∧
    (ace_from_tuple registry (RawTuple.mk t (RightsIn.str s) ats2) =
        Except.error WinError.unknown_right ↔
      registry s = none) ∧
    ace_from_tuple registry (RawTuple.mk t (RightsIn.num n) ats2) =
      Except.ok (Ace.mk t n ty) := by
  refine ⟨?_, ?_, ?_, ?_⟩
  · show (match parse_access_type ats with
      | none => Except.error WinError.invalid_access_type
      | some ty' =>
        match lookup_rights registry rin with
        | none => Except.error WinError.unknown_right
        | some m => Except.ok (Ace.mk t m ty')) =
          Except.error WinError.invalid_access_type ↔
        parse_access_type ats = none
    cases parse_access_type ats with
    | none => simp
    | some ty' =>
      cases lookup_rights registry rin with
      | none => simp
      | some m => simp
  · unfold parse_access_type
    split_ifs with h1 hd
    · simp [h1]
    · simp [hd]
    · simp [h1, hd]
  · show (match parse_access_type ats2 with
      | none => Except.error WinError.invalid_access_type
      | some ty' =>
        match lookup_rights registry (RightsIn.str s) with
        | none => Except.error WinError.unknown_right
        | some m => Except.ok (Ace.mk t m ty')) =
          Except.error WinError.unknown_right ↔
        registry s = none
    rw [h2]
    show (match registry s with
      | none => Except.error WinError.unknown_right
      | some m => Except.ok (Ace.mk t m ty)) =
          Except.error WinError.unknown_right ↔
        registry s = none
    cases registry s with
    | none => simp
    | some m => simp
  · show (match parse_access_type ats2 with
      | none => Except.error WinError.invalid_access_type
      | some ty' =>
        match lookup_rights registry (RightsIn.num n) with
        | none => Except.error WinError.unknown_right
        | some m => Except.ok (Ace.mk t m ty')) =
          Except.ok (Ace.mk t n ty)
    rw [h2]
    rfl

/-- Witness for C8: with the sample registry, the unrecognized token
"Frobnicate" is the invalid-access-type failure, the unrecognized rights
symbol "BOGUS" under the accepted casing "DENY" is the unknown-right
failure, and the numeric mask 7 is stored as-is. -/
theorem claim_C8_witness :
    (ace_from_tuple sample_registry
        (RawTuple.mk "X" (RightsIn.num 5) "Frobnicate") =
        Except.error WinError.invalid_access_type ↔
      parse_access_type "Frobnicate" = none) ∧
    (parse_access_type "Frobnicate" = none ↔
      (lower_chars "Frobnicate" ≠ "allow".data ∧
        lower_chars "Frobnicate" ≠ "deny".data)) ∧
    (ace_from_tuple sample_registry
        (RawTuple.mk "X" (RightsIn.str "BOGUS") "DENY") =
        Except.error WinError.unknown_right ↔
      sample_registry "BOGUS" = none) ∧
    ace_from_tuple sample_registry (RawTuple.mk "X" (RightsIn.num 7) "DENY") =
      Except.ok (Ace.mk "X" 7 AccessType.deny) :=
  claim_C8 sample_registry "X" "BOGUS" "Frobnicate" "DENY"
    (RightsIn.num 5) 7 AccessType.deny (by decide)

/-- C9: In `Env.get`, a `KeyError` from the `_get` hook — the base
class's not-found signal — is answered with the supplied default
completely unmodified, even with `expand=True`, while the docstring's
promise ("this default is expanded if `expand` is True") would expand
it; expansion is applied only to values actually found. -/
theorem claim_C9 (expand_fn : String → String) (default : PyVal)
    (v : PyVal) :
    env_get (Except.error PyExc.keyError) expand_fn default true =
      Except.ok default ∧
    env_get_docstring (Except.error PyExc.keyError) expand_fn default true =
      Except.ok (PyVal.str (env_expand expand_fn default)) ∧
    env_get (Except.ok v) expand_fn default true =
      Except.ok (PyVal.str (env_expand expand_fn v)) ∧
    env_get (Except.ok v) expand_fn default false = Except.ok v :=
  ⟨rfl, rfl, rfl, rfl⟩

/-- Witness for C9 with an expander that appends "!": the code returns
the default `"x"` untouched where the docstring's version would return
`"x!"`; the found value `"v"` is expanded to `"v!"`. -/
theorem claim_C9_witness :
    env_get (Except.error PyExc.keyError) (fun s => s ++ "!")
        (PyVal.str "x") true = Except.ok (PyVal.str "x") ∧
    env_get_docstring (Except.error PyExc.keyError) (fun s => s ++ "!")
        (PyVal.str "x") true =
      Except.ok (PyVal.str (env_expand (fun s => s ++ "!") (PyVal.str "x"))) ∧
    env_get (Except.ok (PyVal.str "v")) (fun s => s ++ "!")
        (PyVal.str "x") true =
      Except.ok (PyVal.str (env_expand (fun s => s ++ "!") (PyVal.str "v"))) ∧
    env_get (Except.ok (PyVal.str "v")) (fun s => s ++ "!")
        (PyVal.str "x") false = Except.ok (PyVal.str "v") :=
  claim_C9 (fun s => s ++ "!") (PyVal.str "x") (PyVal.str "v")

/-- C10: For a missing variable name, `Process.__getitem__` and
`Persistent.__getitem__` convert the underlying not-found condition (a
`None` from `win32api.GetEnvironmentVariable`, respectively the caught
registry `x_not_found`) into `KeyError` — that half of the claim holds.
But `get` with the same missing name does not return the default: the
subclass `_get` hooks return `None` instead of raising the `KeyError`
that `Env.get` catches, so `Env.get` expands `unicode(None)` and both
getters return the string `expand("None")` whatever the default is. -/
theorem claim_C10 (lookup reg_val : String → Option String) (item : String)
    (expand_fn : String → String) (default : PyVal)
    (hp : lookup item = none) (hr : reg_val item = none) :
    process_getitem lookup item = Except.error PyExc.keyError ∧
    persistent_getitem reg_val item = Except.error PyExc.keyError ∧
    process_env_get lookup item expand_fn default true =
      Except.ok (PyVal.str (expand_fn "None")) ∧
    persistent_env_get reg_val item expand_fn default true =
      Except.ok (PyVal.str (expand_fn "None")) := by
  refine ⟨?_, ?_, ?_, ?_⟩
  · unfold process_getitem process_get_raw
    rw [hp]
  · unfold persistent_getitem persistent_get_raw
    rw [hr]
  · unfold process_env_get process_get_raw
    rw [hp]
    rfl
  · unfold persistent_env_get persistent_get_raw
    rw [hr]
    rfl

/-- Witness for C10 at the failing input: the variable
"WINSYS_NO_SUCH_VAR" is absent from both environments, the default is
the string "fallback", and the expander is the identity — indexing
raises `KeyError`, and `get` returns the string "None", not the
default. -/
theorem claim_C10_witness :
    process_getitem (fun _ => none) "WINSYS_NO_SUCH_VAR" =
      Except.error PyExc.keyError ∧
    persistent_getitem (fun _ => none) "WINSYS_NO_SUCH_VAR" =
      Except.error PyExc.keyError ∧
    process_env_get (fun _ => none) "WINSYS_NO_SUCH_VAR" (fun s => s)
        (PyVal.str "fallback") true = Except.ok (PyVal.str "None") ∧
    persistent_env_get (fun _ => none) "WINSYS_NO_SUCH_VAR" (fun s => s)
        (PyVal.str "fallback") true = Except.ok (PyVal.str "None") :=
  claim_C10 (fun _ => none) (fun _ => none) "WINSYS_NO_SUCH_VAR"
    (fun s => s) (PyVal.str "fallback") rfl rfl



